import Mathlib

/-!
Verification development for the CNiS universal MCP server gateway
(tool registry, protocol adapters, auth middleware, rate limiter and
WebSocket connection manager), shallowly embedded from the TypeScript
source.  JavaScript objects are modelled by an inductive `Json` type,
time stamps by `Int` milliseconds, and the out-of-scope news business
logic (the code behind each tool's zod validation) by an arbitrary
function parameter, so every theorem quantifying over it holds for every
possible tool implementation.
-/

set_option maxHeartbeats 1600000

/-- JSON values as produced by `express.json()` / `JSON.parse`.  Numbers are
modelled by integers (every value the gateway inspects is compared against
integer bounds). -/
inductive Json where
  | null : Json
  | bool (b : Bool) : Json
  | num (n : Int) : Json
  | str (s : String) : Json
  | arr (elems : List Json) : Json
  | obj (fields : List (String × Json)) : Json

namespace Json

/-- First-match lookup in an object's field list (JS property access). -/
def lookupField : List (String × Json) → String → Option Json
  | [], _ => none
  | (k, v) :: rest, key => if k = key then some v else lookupField rest key

/-- Is this value the JSON `null`?  (JS `=== null`, the predicate deciding
whether destructuring / property access throws.) -/
def isNull : Json → Bool
  | Json.null => true
  | _ => false

end Json

/-- JS property access `value.key`: `undefined` (here `none`) for every
non-object value.  Access on `null`/`undefined` throws in JS; the call sites
below model that throw explicitly. -/
def jsGetField : Json → String → Option Json
  | Json.obj fields, key => Json.lookupField fields key
  | _, _ => none

/-- JS truthiness of a value. -/
def jsTruthy : Json → Bool
  | Json.null => false
  | Json.bool b => b
  | Json.num n => n != 0
  | Json.str s => s ≠ ""
  | Json.arr _ => true
  | Json.obj _ => true

/-- JS truthiness of a possibly-`undefined` value (`none` = `undefined`). -/
def jsTruthyOpt : Option Json → Bool
  | none => false
  | some j => jsTruthy j

/-- String interpolation of a value in a JS template literal. -/
def jsDisplay : Json → String
  | Json.null => "null"
  | Json.bool b => if b then "true" else "false"
  | Json.num n => toString n
  | Json.str s => s
  | Json.arr _ => ""
  | Json.obj _ => "[object Object]"

/-- String interpolation of a possibly-`undefined` value. -/
def jsDisplayOpt : Option Json → String
  | none => "undefined"
  | some j => jsDisplay j

/-- JS `String.prototype.includes` (substring test). -/
def jsIncludes (s pat : String) : Bool :=
  if pat = "" then true else (s.splitOn pat).length ≥ 2

/-! ## Sliding-window rate limiter

Embeds `RateLimitMiddleware.getSlidingWindowRateLimit(windowMs, maxRequests)`
(src/src/middleware/rate-limit.ts, lines 155-194).  The closure's `windows`
map is the explicit state `String → List Int`; `Date.now()` is the `now`
argument. -/

/-- `requests.filter(timestamp => timestamp > windowStart)` with
`windowStart = now - windowMs`. -/
def swFilter (windowMs now : Int) (ts : List Int) : List Int :=
  ts.filter (fun t => now - windowMs < t)

/-- `Math.min(...requests)`: `none` on the empty list (JS `Infinity`). -/
def jsMathMin : List Int → Option Int
  | [] => none
  | t :: ts => some (ts.foldl min t)

/-- Outcome of one pass through the sliding-window middleware:
either a 429 rejection carrying the `retryAfter` field of the JSON body
(`none` encodes JS `Infinity`, only reachable with `maxRequests = 0`),
or acceptance carrying the `X-RateLimit-Remaining` header value. -/
inductive SwResult where
  | rejected (retryAfter : Option Nat) : SwResult
  | accepted (remaining : Int) : SwResult
deriving DecidableEq

/-- One request against the sliding-window limiter for `key` at time `now`.
On rejection the map is left unchanged (the source only calls `windows.set`
on the accept path); `retryAfter` is
`Math.ceil((oldestRequest + windowMs - now) / 1000)`, written here with `Nat`
ceiling division, which agrees with JS because every filtered timestamp
satisfies `oldest + windowMs - now > 0`. -/
def slidingWindowStep (windowMs : Int) (maxRequests : Nat)
    (windows : String → List Int) (key : String) (now : Int) :
    SwResult × (String → List Int) :=
  let requests := swFilter windowMs now (windows key)
  if maxRequests ≤ requests.length then
    (SwResult.rejected ((jsMathMin requests).map
        (fun oldest => ((oldest + windowMs - now).toNat + 999) / 1000)),
     windows)
  else
    let requests2 := requests ++ [now]
    (SwResult.accepted ((maxRequests : Int) - requests2.length),
     fun k => if k = key then requests2 else windows k)

/-- Run a sequence of requests for one key, returning the acceptance flag of
each request in order together with the final window map. -/
def swRun (windowMs : Int) (maxRequests : Nat)
    (windows : String → List Int) (key : String) :
    List Int → List Bool × (String → List Int)
  | [] => ([], windows)
  | t :: rest =>
    let step := slidingWindowStep windowMs maxRequests windows key t
    let tail := swRun windowMs maxRequests step.2 key rest
    ((match step.1 with
      | SwResult.accepted _ => true
      | SwResult.rejected _ => false) :: tail.1, tail.2)

/-- The empty window map (fresh `new Map()`). -/
def swEmpty : String → List Int := fun _ => []

/-! ## Tool registry

Embeds `initializeTools` (src/src/tools/tool-registry.ts).  Each tool's
handler first runs `schema.parse(params)` (zod) and then executes the news
business logic; the business logic lives in the excluded tool-implementation
layer, so it is a function parameter
`business : String → Json → Except String String` (tool name and
defaults-applied parsed params to either a result string or a thrown error
message).  The zod parse is embedded per tool; on failure it reports the
first violated check in schema declaration order (the source's `ZodError`
serialises all issues; only the existence and content of the first one is
used here). -/

/-- The zod type name of a JSON value (`"undefined"` is handled separately
at each combinator). -/
def jsonTypeName : Json → String
  | Json.null => "null"
  | Json.bool _ => "boolean"
  | Json.num _ => "number"
  | Json.str _ => "string"
  | Json.arr _ => "array"
  | Json.obj _ => "object"

/-- Object entry for an optional parsed field: omitted when absent. -/
def optEntry (key : String) : Option Json → List (String × Json)
  | none => []
  | some v => [(key, v)]

/-- `z.number().min(lo).max(hi).default(dflt)` on one field. -/
def zNumDefault (fields : List (String × Json)) (key : String)
    (lo hi dflt : Int) : Except String Json :=
  match Json.lookupField fields key with
  | none => Except.ok (Json.num dflt)
  | some (Json.num n) =>
    if n < lo then
      Except.error (key ++ ": Number must be greater than or equal to " ++ toString lo)
    else if hi < n then
      Except.error (key ++ ": Number must be less than or equal to " ++ toString hi)
    else Except.ok (Json.num n)
  | some j => Except.error (key ++ ": Expected number, received " ++ jsonTypeName j)

/-- `z.boolean().default(dflt)` on one field. -/
def zBoolDefault (fields : List (String × Json)) (key : String)
    (dflt : Bool) : Except String Json :=
  match Json.lookupField fields key with
  | none => Except.ok (Json.bool dflt)
  | some (Json.bool b) => Except.ok (Json.bool b)
  | some j => Except.error (key ++ ": Expected boolean, received " ++ jsonTypeName j)

/-- `z.enum(options).default(dflt)` on one field. -/
def zEnumDefault (fields : List (String × Json)) (key : String)
    (options : List String) (dflt : String) : Except String Json :=
  match Json.lookupField fields key with
  | none => Except.ok (Json.str dflt)
  | some (Json.str s) =>
    if s ∈ options then Except.ok (Json.str s)
    else Except.error (key ++ ": Invalid enum value")
  | some _ => Except.error (key ++ ": Invalid enum value")

/-- `z.enum(options).optional()` on one field. -/
def zEnumOptional (fields : List (String × Json)) (key : String)
    (options : List String) : Except String (Option Json) :=
  match Json.lookupField fields key with
  | none => Except.ok none
  | some (Json.str s) =>
    if s ∈ options then Except.ok (some (Json.str s))
    else Except.error (key ++ ": Invalid enum value")
  | some _ => Except.error (key ++ ": Invalid enum value")

/-- `z.string().min(minLen)` on a required field (`minLen = 0` models a bare
`z.string()`). -/
def zStrRequired (fields : List (String × Json)) (key : String)
    (minLen : Nat) : Except String Json :=
  match Json.lookupField fields key with
  | none => Except.error (key ++ ": Required")
  | some (Json.str s) =>
    if s.length < minLen then
      Except.error (key ++ ": String must contain at least " ++
        toString minLen ++ " character(s)")
    else Except.ok (Json.str s)
  | some j => Except.error (key ++ ": Expected string, received " ++ jsonTypeName j)

/-- `z.string().optional()` on one field. -/
def zStrOptional (fields : List (String × Json)) (key : String) :
    Except String (Option Json) :=
  match Json.lookupField fields key with
  | none => Except.ok none
  | some (Json.str s) => Except.ok (some (Json.str s))
  | some j => Except.error (key ++ ": Expected string, received " ++ jsonTypeName j)

/-- `z.string().url().optional()` on one field; the URL well-formedness test
performed inside the zod library is the parameter `urlCheck`. -/
def zStrUrlOptional (urlCheck : String → Bool) (fields : List (String × Json))
    (key : String) : Except String (Option Json) :=
  match Json.lookupField fields key with
  | none => Except.ok none
  | some (Json.str s) =>
    if urlCheck s then Except.ok (some (Json.str s))
    else Except.error (key ++ ": Invalid url")
  | some j => Except.error (key ++ ": Expected string, received " ++ jsonTypeName j)

/-- `z.array(z.string()).optional()` on one field. -/
def zArrStrOptional (fields : List (String × Json)) (key : String) :
    Except String (Option Json) :=
  match Json.lookupField fields key with
  | none => Except.ok none
  | some (Json.arr xs) =>
    if xs.all (fun x => match x with | Json.str _ => true | _ => false) then
      Except.ok (some (Json.arr xs))
    else Except.error (key ++ ": Expected string, received other")
  | some j => Except.error (key ++ ": Expected array, received " ++ jsonTypeName j)

/-- zod schema of `get_top_crypto_news` (tool-registry.ts lines 66-74). -/
def validateGetTopCryptoNews (j : Json) : Except String Json :=
  match j with
  | Json.obj fields => do
    let count ← zNumDefault fields "count" 1 50 10
    let impact ← zEnumDefault fields "filter_impact" ["all", "high", "critical"] "all"
    let sentiment ← zBoolDefault fields "include_sentiment" true
    let maxAge ← zNumDefault fields "max_age_hours" 1 168 24
    let realTime ← zBoolDefault fields "real_time" false
    Except.ok (Json.obj [("count", count), ("filter_impact", impact),
      ("include_sentiment", sentiment), ("max_age_hours", maxAge),
      ("real_time", realTime)])
  | _ => Except.error ("Expected object, received " ++ jsonTypeName j)

/-- zod schema of `search_crypto_news` (tool-registry.ts lines 137-141). -/
def validateSearchCryptoNews (j : Json) : Except String Json :=
  match j with
  | Json.obj fields => do
    let query ← zStrRequired fields "query" 2
    let count ← zNumDefault fields "count" 1 30 10
    let tier ← zEnumOptional fields "source_tier"
      ["tier1_trusted", "tier2_verify", "official_sources", "onchain_analysts"]
    Except.ok (Json.obj ([("query", query), ("count", count)] ++
      optEntry "source_tier" tier))
  | _ => Except.error ("Expected object, received " ++ jsonTypeName j)

/-- zod schema of `get_market_impact_news` (tool-registry.ts lines 188-192). -/
def validateGetMarketImpactNews (j : Json) : Except String Json :=
  match j with
  | Json.obj fields => do
    let minScore ← zNumDefault fields "min_impact_score" 0 100 60
    let count ← zNumDefault fields "count" 1 30 15
    let assets ← zArrStrOptional fields "affected_assets"
    Except.ok (Json.obj ([("min_impact_score", minScore), ("count", count)] ++
      optEntry "affected_assets" assets))
  | _ => Except.error ("Expected object, received " ++ jsonTypeName j)

/-- zod schema of `analyze_news_credibility` (tool-registry.ts lines 239-242). -/
def validateAnalyzeNewsCredibility (urlCheck : String → Bool) (j : Json) :
    Except String Json :=
  match j with
  | Json.obj fields => do
    let newsUrl ← zStrUrlOptional urlCheck fields "news_url"
    let sourceName ← zStrOptional fields "source_name"
    Except.ok (Json.obj (optEntry "news_url" newsUrl ++
      optEntry "source_name" sourceName))
  | _ => Except.error ("Expected object, received " ++ jsonTypeName j)

/-- zod schema of `get_news_by_source` (tool-registry.ts lines 279-282). -/
def validateGetNewsBySource (j : Json) : Except String Json :=
  match j with
  | Json.obj fields => do
    let source ← zStrRequired fields "source" 0
    let count ← zNumDefault fields "count" 1 30 10
    Except.ok (Json.obj [("source", source), ("count", count)])
  | _ => Except.error ("Expected object, received " ++ jsonTypeName j)

/-- One registered tool: its name, JSON-schema advertisement, required
permissions, and the zod validation performed at the top of its handler.
The `description` strings and the advertisement schemas are copied from the
source; the business logic after validation is the external parameter. -/
structure ToolDef where
  name : String
  description : String
  inputSchema : Json
  permissions : List String
  validate : Json → Except String Json

/-- Advertised input schema of `get_top_crypto_news`. -/
def schemaGetTopCryptoNews : Json :=
  Json.obj [("type", Json.str "object"), ("properties", Json.obj
    [("count", Json.obj [("type", Json.str "number"),
       ("description", Json.str "Number of top news items to return (1-50)"),
       ("default", Json.num 10), ("minimum", Json.num 1), ("maximum", Json.num 50)]),
     ("filter_impact", Json.obj [("type", Json.str "string"),
       ("enum", Json.arr [Json.str "all", Json.str "high", Json.str "critical"]),
       ("description", Json.str "Filter by impact level"),
       ("default", Json.str "all")]),
     ("include_sentiment", Json.obj [("type", Json.str "boolean"),
       ("description", Json.str "Include sentiment analysis in results"),
       ("default", Json.bool true)]),
     ("max_age_hours", Json.obj [("type", Json.str "number"),
       ("description", Json.str "Maximum age of news in hours"),
       ("default", Json.num 24), ("minimum", Json.num 1), ("maximum", Json.num 168)]),
     ("real_time", Json.obj [("type", Json.str "boolean"),
       ("description", Json.str "Enable real-time streaming (WebSocket only)"),
       ("default", Json.bool false)])])]

/-- Advertised input schema of `search_crypto_news`. -/
def schemaSearchCryptoNews : Json :=
  Json.obj [("type", Json.str "object"), ("properties", Json.obj
    [("query", Json.obj [("type", Json.str "string"),
       ("description", Json.str "Search query (keywords, coin names, topics)"),
       ("minLength", Json.num 2)]),
     ("count", Json.obj [("type", Json.str "number"),
       ("description", Json.str "Number of results to return"),
       ("default", Json.num 10), ("minimum", Json.num 1), ("maximum", Json.num 30)]),
     ("source_tier", Json.obj [("type", Json.str "string"),
       ("enum", Json.arr [Json.str "tier1_trusted", Json.str "tier2_verify",
         Json.str "official_sources", Json.str "onchain_analysts"]),
       ("description", Json.str "Filter by source tier")])]),
   ("required", Json.arr [Json.str "query"])]

/-- Advertised input schema of `get_market_impact_news`. -/
def schemaGetMarketImpactNews : Json :=
  Json.obj [("type", Json.str "object"), ("properties", Json.obj
    [("min_impact_score", Json.obj [("type", Json.str "number"),
       ("description", Json.str "Minimum impact score (0-100)"),
       ("default", Json.num 60), ("minimum", Json.num 0), ("maximum", Json.num 100)]),
     ("count", Json.obj [("type", Json.str "number"),
       ("description", Json.str "Number of news items to return"),
       ("default", Json.num 15), ("minimum", Json.num 1), ("maximum", Json.num 30)]),
     ("affected_assets", Json.obj [("type", Json.str "array"),
       ("items", Json.obj [("type", Json.str "string")]),
       ("description", Json.str "Filter by affected assets (BTC, ETH, etc.)")])])]

/-- Advertised input schema of `analyze_news_credibility`. -/
def schemaAnalyzeNewsCredibility : Json :=
  Json.obj [("type", Json.str "object"), ("properties", Json.obj
    [("news_url", Json.obj [("type", Json.str "string"),
       ("description", Json.str "URL of the news item to analyze"),
       ("format", Json.str "uri")]),
     ("source_name", Json.obj [("type", Json.str "string"),
       ("description", Json.str "Name of the news source to analyze")])])]

/-- Advertised input schema of `get_news_by_source`. -/
def schemaGetNewsBySource : Json :=
  Json.obj [("type", Json.str "object"), ("properties", Json.obj
    [("source", Json.obj [("type", Json.str "string"),
       ("description", Json.str "Source name (e.g., CoinDesk, Cointelegraph)")]),
     ("count", Json.obj [("type", Json.str "number"),
       ("description", Json.str "Number of news items to return"),
       ("default", Json.num 10), ("minimum", Json.num 1), ("maximum", Json.num 30)])]),
   ("required", Json.arr [Json.str "source"])]

/-- Registered tool 1. -/
def toolGetTopCryptoNews : ToolDef :=
  { name := "get_top_crypto_news",
    description := "Get top crypto news with comprehensive intelligence analysis including credibility, impact, and sentiment scoring",
    inputSchema := schemaGetTopCryptoNews,
    permissions := ["read", "analyze"],
    validate := validateGetTopCryptoNews }

/-- Registered tool 2. -/
def toolSearchCryptoNews : ToolDef :=
  { name := "search_crypto_news",
    description := "Search crypto news by keyword or topic with intelligent filtering and ranking",
    inputSchema := schemaSearchCryptoNews,
    permissions := ["read", "analyze"],
    validate := validateSearchCryptoNews }

/-- Registered tool 3. -/
def toolGetMarketImpactNews : ToolDef :=
  { name := "get_market_impact_news",
    description := "Get high-impact news that could significantly affect crypto markets with detailed impact analysis",
    inputSchema := schemaGetMarketImpactNews,
    permissions := ["read", "analyze"],
    validate := validateGetMarketImpactNews }

/-- Registered tool 4. -/
def toolAnalyzeNewsCredibility (urlCheck : String → Bool) : ToolDef :=
  { name := "analyze_news_credibility",
    description := "Analyze the credibility and reliability of specific news items or sources",
    inputSchema := schemaAnalyzeNewsCredibility,
    permissions := ["read", "analyze"],
    validate := validateAnalyzeNewsCredibility urlCheck }

/-- Registered tool 5. -/
def toolGetNewsBySource : ToolDef :=
  { name := "get_news_by_source",
    description := "Get news from a specific source with source reliability analysis",
    inputSchema := schemaGetNewsBySource,
    permissions := ["read", "analyze"],
    validate := validateGetNewsBySource }

/-- The tool catalog returned by `getUniversalTools` / `initializeTools`, in
registration order. -/
def universalTools (urlCheck : String → Bool) : List ToolDef :=
  [toolGetTopCryptoNews, toolSearchCryptoNews, toolGetMarketImpactNews,
   toolAnalyzeNewsCredibility urlCheck, toolGetNewsBySource]

/-- `tools.find(t => t.name === name)`: JS strict equality against the tool
name matches only the identical string. -/
def findTool (urlCheck : String → Bool) (name : Json) : Option ToolDef :=
  (universalTools urlCheck).find? (fun t =>
    match name with
    | Json.str s => s = t.name
    | _ => false)

/-! ## Auth middleware credential store

Embeds `AuthMiddleware` (src/src/middleware/auth.ts): `verifyApiKey`,
`revokeApiKey`, and the WebSocket adapter's own `validateApiKey` /
`authenticateConnection` (src/src/protocols/websocket-mcp.ts).  The
`bcrypt.compareSync` secret comparison and `jwt.decode` are library calls,
modelled as function parameters.  The `createdAt` / `lastUsed` `Date` fields
of the record are elided (the source only ever writes them). -/

/-- One `ApiKey` record of the in-memory credential store. -/
structure ApiKeyRecord where
  id : String
  key : String
  name : String
  permissions : List String
  active : Bool
deriving DecidableEq

/-- `AuthMiddleware.verifyApiKey`: iterate the store and return the first
record whose hashed secret matches the provided key *and* whose `active`
flag is set (the `lastUsed` update is elided). -/
def verifyApiKey (compare : String → String → Bool)
    (store : List ApiKeyRecord) (providedKey : String) : Option ApiKeyRecord :=
  store.find? (fun r => compare providedKey r.key && r.active)

/-- `AuthMiddleware.revokeApiKey`: flip `active := false` on the first record
with the given id. -/
def revokeApiKey : List ApiKeyRecord → String → List ApiKeyRecord
  | [], _ => []
  | r :: rest, keyId =>
    if r.id = keyId then { r with active := false } :: rest
    else r :: revokeApiKey rest keyId

/-- `WebSocketMcpProtocolHandler.validateApiKey` (websocket-mcp.ts lines
615-619): accepts any string longer than 10 characters, without consulting
the credential store. -/
def wsValidateApiKey (apiKey : String) : Bool :=
  decide (apiKey.length > 10)

/-- `WebSocketMcpProtocolHandler.authenticateConnection` with auth middleware
configured: API key from query/header first, then bearer token, each guarded
by JS truthiness of the extracted string.  `jwtDecodeOk` models
`jwt.decode(token)` being non-null. -/
def wsAuthenticateConnection (jwtDecodeOk : String → Bool)
    (apiKey token : Option String) : Bool :=
  (match apiKey with
   | some k => k ≠ "" && wsValidateApiKey k
   | none => false) ||
  (match token with
   | some t => t ≠ "" && jwtDecodeOk t
   | none => false)

/-! ## WebSocket connection manager and heartbeat

Embeds the `connections` map, `startHeartbeat`, `broadcast` and
`broadcastToSubscribers` of `WebSocketMcpProtocolHandler`
(src/src/protocols/websocket-mcp.ts).  A connection records its liveness
flag, whether the underlying socket is in `readyState === OPEN`, and its
subscription list; the iteration order of the `Map` is the list order. -/

structure WsConn where
  id : String
  isAlive : Bool
  isOpen : Bool
  subscriptions : List String
deriving DecidableEq

structure WsState where
  connections : List WsConn
deriving DecidableEq

/-- One tick of the 30-second heartbeat interval: every connection whose
`isAlive` flag is still cleared from the previous cycle is terminated and
removed (and skipped — no ping); every surviving connection has its flag
cleared and, when its socket is open, is sent a ping.  Returns the new state
and the ids pinged this cycle, in iteration order. -/
def heartbeatStep (st : WsState) : WsState × List String :=
  (⟨(st.connections.filter (fun c => c.isAlive)).map
      (fun c => { c with isAlive := false })⟩,
   ((st.connections.filter (fun c => c.isAlive)).filter
      (fun c => c.isOpen)).map (fun c => c.id))

/-- The `pong` socket events arriving between two heartbeat ticks: each
answering connection sets its own `isAlive := true`. -/
def applyPongs (st : WsState) (pongs : List String) : WsState :=
  ⟨st.connections.map (fun c =>
    if c.id ∈ pongs then { c with isAlive := true } else c)⟩

/-- `broadcast`: the ids that receive a broadcast message (every connection
in the map whose socket is open). -/
def broadcastTargets (st : WsState) : List String :=
  (st.connections.filter (fun c => c.isOpen)).map (fun c => c.id)

/-- `broadcastToSubscribers`: the ids that receive a topic broadcast. -/
def subscriberTargets (st : WsState) (topic : String) : List String :=
  (st.connections.filter (fun c =>
    c.subscriptions.contains topic && c.isOpen)).map (fun c => c.id)

/-! ## WebSocket tool calls and streaming

Embeds `handleToolCall` and `handleStreamingToolCall` of
`WebSocketMcpProtocolHandler` (websocket-mcp.ts lines 374-452).  A function
returns the list of messages sent on the connection, in order, paired with
`some msg` when a JS exception escapes to `handleMcpRequest`'s catch block
(only possible when destructuring `params` throws).  Message envelopes keep
the `type` and `data` fields; the per-message `uuid` and `timestamp` are
elided. -/

/-- Optional `id` property of a JSON-RPC reply object: dropped from the
serialised object when the caller-supplied id was `undefined`. -/
def idFieldEntries : Option Json → List (String × Json)
  | none => []
  | some j => [("id", j)]

/-- Envelope of one outbound WebSocket message. -/
def wsEnvelope (msgType : String) (data : Json) : Json :=
  Json.obj [("type", Json.str msgType), ("data", data)]

/-- `sendMcpResponse`. -/
def wsSendMcpResponse (id : Option Json) (result : Json) : Json :=
  wsEnvelope "mcp-response" (Json.obj ([("jsonrpc", Json.str "2.0")] ++
    idFieldEntries id ++ [("result", result)]))

/-- `sendError`: note the source writes `id: id || null`, so the `id` field
is always present, with `null` replacing any falsy id. -/
def wsSendError (id : Option Json) (code : Int) (message : String) : Json :=
  wsEnvelope "mcp-response" (Json.obj
    [("jsonrpc", Json.str "2.0"),
     ("id", match id with
       | some v => if jsTruthy v then v else Json.null
       | none => Json.null),
     ("error", Json.obj [("code", Json.num code), ("message", Json.str message)])])

/-- The initial `streaming started` message of `handleStreamingToolCall`. -/
def wsStreamStarted (id : Option Json) : Json :=
  wsEnvelope "mcp-response" (Json.obj (idFieldEntries id ++
    [("result", Json.obj [("streaming", Json.bool true),
      ("status", Json.str "started")])]))

/-- The `i`-th streaming progress message (`i` running from 1 to 5). -/
def wsStreamProgress (id : Option Json) (i : Nat) : Json :=
  wsEnvelope "mcp-response" (Json.obj (idFieldEntries id ++
    [("streaming", Json.obj
      [("progress", Json.num (i * 20)),
       ("stage", Json.str ("Processing stage " ++ toString i ++ "/5")),
       ("partial", if i < 5 then Json.str ("Intermediate result " ++ toString i)
         else Json.null)])]))

/-- The five progress messages of the simulated streaming analysis. -/
def wsProgressMsgs (id : Option Json) : List Json :=
  (List.range 5).map (fun j => wsStreamProgress id (j + 1))

/-- Exception message for destructuring a property out of `null` (the exact
Node.js wording is abbreviated). -/
def jsDestructureMsg (prop source : String) : String :=
  "Cannot destructure property " ++ prop ++ " of " ++ source ++ " as it is null"

/-- Does `j.key` strict-equal the string literal `s`? -/
def jsFieldIsStr (j : Json) (key s : String) : Bool :=
  match jsGetField j key with
  | some (Json.str t) => t = s
  | _ => false

/-- `WebSocketMcpProtocolHandler.handleToolCall`.  The destructuring of
`params` sits outside the `try`, so a `null` params throws to the caller. -/
def wsHandleToolCall (business : String → Json → Except String String)
    (urlCheck : String → Bool) (id : Option Json) (params : Json) :
    List Json × Option String :=
  if params.isNull then ([], some (jsDestructureMsg "name" "params"))
  else
    match jsGetField params "name" with
    | none => ([wsSendError id (-32602) "Tool name is required"], none)
    | some nm =>
      if jsTruthy nm then
        match findTool urlCheck nm with
        | none => ([wsSendError id (-32602) ("Unknown tool: " ++ jsDisplay nm)], none)
        | some tool =>
          let argsEff := match jsGetField params "arguments" with
            | some v => if jsTruthy v then v else Json.obj []
            | none => Json.obj []
          match tool.validate argsEff with
          | Except.error e =>
            ([wsSendError id (-32603) ("Tool execution failed: " ++ e)], none)
          | Except.ok parsed =>
            match business tool.name parsed with
            | Except.error e =>
              ([wsSendError id (-32603) ("Tool execution failed: " ++ e)], none)
            | Except.ok r =>
              ([wsSendMcpResponse id (Json.obj [("content", Json.arr
                 [Json.obj [("type", Json.str "text"), ("text", Json.str r)]])])],
               none)
      else ([wsSendError id (-32602) "Tool name is required"], none)

/-- `WebSocketMcpProtocolHandler.handleStreamingToolCall`: always sends the
`started` response first, then — only for `get_top_crypto_news` — the five
progress messages followed by the messages of an ordinary `handleToolCall`.
For every other tool name nothing follows the `started` message. -/
def wsStreamCall (business : String → Json → Except String String)
    (urlCheck : String → Bool) (id : Option Json) (params : Json) :
    List Json × Option String :=
  if params.isNull then ([], some (jsDestructureMsg "name" "params"))
  else
    if jsFieldIsStr params "name" "get_top_crypto_news" then
      let tail := wsHandleToolCall business urlCheck id params
      (wsStreamStarted id :: (wsProgressMsgs id ++ tail.1), tail.2)
    else
      ([wsStreamStarted id], none)

/-! ## HTTP MCP protocol handler

Embeds `HttpMcpProtocolHandler` (src/protocols/http-mcp.ts, the
`src/unnamed/part_001` file): `handleJsonRpc`, `handleToolCall`,
`handleResourcesList`/`handleResourceRead`, `handlePromptsList`/
`handlePromptGet`, `createErrorResponse` and the Express route handler
`handleHttpRequest`.  Each function returns the JSON-RPC response object it
would serialise plus the log of business-handler invocations it performed
(`calls`), so that "the handler is never called" is a statement about the
log.  `new Date().toISOString()` is the `nowIso` parameter; the per-request
uuid suffix of `requestId` does not influence any response field modelled
here. -/

/-- Exception message for destructuring a property out of `undefined`
(abbreviated wording). -/
def jsDestructureUndefMsg (prop source : String) : String :=
  "Cannot destructure property " ++ prop ++ " of " ++ source ++
    " as it is undefined"

/-- Exception message for a property read on `null` (abbreviated wording). -/
def jsMemberNullMsg (prop : String) : String :=
  "Cannot read properties of null (reading " ++ prop ++ ")"

/-- `createErrorResponse(id, code, message, data?)`: note `...(data && { data })`
spreads the `data` field only when `data` is truthy, and the `id` key is
dropped by serialisation when `id` was `undefined`. -/
def createErrorResponse (id : Option Json) (code : Int) (message : String)
    (data : Option Json) : Json :=
  Json.obj ([("jsonrpc", Json.str "2.0")] ++ idFieldEntries id ++
    [("error", Json.obj ([("code", Json.num code), ("message", Json.str message)] ++
      (match data with
       | some d => if jsTruthy d then [("data", d)] else []
       | none => [])))])

/-- A `{jsonrpc: '2.0', id, result}` success response object. -/
def mkResultResponse (id : Option Json) (result : Json) : Json :=
  Json.obj ([("jsonrpc", Json.str "2.0")] ++ idFieldEntries id ++
    [("result", result)])

/-- Result payload of a successful `tools/call`. -/
def toolContentJson (text : String) : Json :=
  Json.obj [("content", Json.arr
    [Json.obj [("type", Json.str "text"), ("text", Json.str text)]])]

/-- Result payload of a successful `resources/read`. -/
def resourceContentsJson (text : String) : Json :=
  Json.obj [("contents", Json.arr
    [Json.obj [("type", Json.str "text"), ("text", Json.str text)]])]

/-- Result of the `initialize` method. -/
def initResultJson : Json :=
  Json.obj [("protocolVersion", Json.str "2024-11-05"),
    ("capabilities", Json.obj [("tools", Json.obj []), ("resources", Json.obj []),
      ("prompts", Json.obj []), ("logging", Json.obj [])]),
    ("serverInfo", Json.obj [("name", Json.str "cnis-mcp-server"),
      ("version", Json.str "2.0.0")])]

/-- Result of `tools/list`: the advertised catalog. -/
def toolsListResult (urlCheck : String → Bool) : Json :=
  Json.obj [("tools", Json.arr ((universalTools urlCheck).map (fun t =>
    Json.obj [("name", Json.str t.name), ("description", Json.str t.description),
      ("inputSchema", t.inputSchema)])))]

/-- Result of `resources/list`: the three static resources. -/
def resourcesListResult : Json :=
  Json.obj [("resources", Json.arr
    [Json.obj [("uri", Json.str "crypto://news/latest"),
       ("name", Json.str "Latest Crypto News"),
       ("description", Json.str "Latest cryptocurrency news from all sources"),
       ("mimeType", Json.str "application/json")],
     Json.obj [("uri", Json.str "crypto://news/high-impact"),
       ("name", Json.str "High Impact News"),
       ("description", Json.str "High-impact news that could affect markets"),
       ("mimeType", Json.str "application/json")],
     Json.obj [("uri", Json.str "crypto://market/summary"),
       ("name", Json.str "Market Summary"),
       ("description", Json.str "Current market sentiment and intelligence summary"),
       ("mimeType", Json.str "application/json")]])]

/-- Result of `prompts/list`: the two static prompts. -/
def promptsListResult : Json :=
  Json.obj [("prompts", Json.arr
    [Json.obj [("name", Json.str "crypto_news_analysis"),
       ("description", Json.str "Analyze crypto news for market impact and credibility"),
       ("arguments", Json.arr
         [Json.obj [("name", Json.str "news_text"),
            ("description", Json.str "The news article text to analyze"),
            ("required", Json.bool true)],
          Json.obj [("name", Json.str "include_sentiment"),
            ("description", Json.str "Include sentiment analysis"),
            ("required", Json.bool false)]])],
     Json.obj [("name", Json.str "market_summary_prompt"),
       ("description", Json.str "Generate a comprehensive market summary from news data"),
       ("arguments", Json.arr
         [Json.obj [("name", Json.str "time_range"),
            ("description", Json.str "Time range for news analysis (e.g., \"24h\", \"7d\")"),
            ("required", Json.bool false)]])]])]

/-- The pretty-printed `JSON.stringify` payload of `crypto://market/summary`. -/
def marketSummaryContent (nowIso : String) : String :=
  "\x7b\n  \"timestamp\": \"" ++ nowIso ++ "\",\n  \"status\": \"active\",\n  " ++
    "\"message\": \"Market summary available via get_top_crypto_news tool\"\n\x7d"

/-- The `crypto_news_analysis` prompt template. -/
def cryptoNewsAnalysisPrompt (newsText : String) (includeSentiment : Bool) : String :=
  "Analyze the following cryptocurrency news article for:\n\n" ++
  "1. **Credibility Assessment** (0-100):\n   - Source reliability\n" ++
  "   - Fact verification\n   - Cross-reference validation\n\n" ++
  "2. **Market Impact Analysis** (0-100):\n   - Potential price movement\n" ++
  "   - Affected cryptocurrencies\n   - Timeline of impact\n\n" ++
  (if includeSentiment then
    "3. **Sentiment Analysis**:\n   - Overall sentiment (positive/negative/neutral)\n" ++
    "   - Market emotion indicators\n   - Community reaction potential\n\n"
   else "") ++
  "**News Article:**\n" ++ newsText ++
  "\n\n**Provide analysis in structured format with specific scores and actionable insights.**"

/-- The `market_summary_prompt` template. -/
def marketSummaryPrompt (timeRange nowIso : String) : String :=
  "Generate a comprehensive cryptocurrency market summary for the last " ++
  timeRange ++ " based on:\n\n" ++
  "1. **Key News Events**: Most important developments\n" ++
  "2. **Market Sentiment**: Overall market mood and direction\n" ++
  "3. **Regulatory Updates**: Any regulatory changes or announcements\n" ++
  "4. **Technical Developments**: Protocol updates, partnerships, launches\n" ++
  "5. **Risk Assessment**: Current market risks and opportunities\n\n" ++
  "**Format the summary for:**\n- Executive overview (2-3 sentences)\n" ++
  "- Key highlights (bullet points)\n" ++
  "- Market outlook (bullish/bearish/neutral with reasoning)\n" ++
  "- Recommended actions for traders/investors\n\n" ++
  "**Time Range:** " ++ timeRange ++ "\n**Analysis Date:** " ++ nowIso

/-- Response object plus the log of business-handler invocations
`(toolName, parsedParams)` performed while producing it. -/
structure HandlerOut where
  resp : Json
  calls : List (String × Json)

/-- A tool handler: zod validation first, then the business logic; the log
records the business call exactly when validation succeeded. -/
def runHandler (business : String → Json → Except String String)
    (tool : ToolDef) (args : Json) : Except String String × List (String × Json) :=
  match tool.validate args with
  | Except.error e => (Except.error e, [])
  | Except.ok parsed => (business tool.name parsed, [(tool.name, parsed)])

/-- `args || {}` before a handler invocation. -/
def argsOrEmpty : Option Json → Json
  | some v => if jsTruthy v then v else Json.obj []
  | none => Json.obj []

/-- Optional chaining `o?.key`. -/
def jsOptField (o : Option Json) (key : String) : Option Json :=
  match o with
  | some v => jsGetField v key
  | none => none

/-- `HttpMcpProtocolHandler.handleToolCall(id, params)`. -/
def handleToolCallHttp (business : String → Json → Except String String)
    (urlCheck : String → Bool) (id : Option Json) (params : Option Json) :
    HandlerOut :=
  match params with
  | none =>
    ⟨createErrorResponse id (-32603) "Internal error"
      (some (Json.str ("Tool execution failed: " ++
        jsDestructureUndefMsg "name" "params"))), []⟩
  | some p =>
    if p.isNull then
      ⟨createErrorResponse id (-32603) "Internal error"
        (some (Json.str ("Tool execution failed: " ++
          jsDestructureMsg "name" "params"))), []⟩
    else if jsTruthyOpt (jsGetField p "name") then
      match findTool urlCheck (match jsGetField p "name" with
        | some v => v | none => Json.null) with
      | none =>
        ⟨createErrorResponse id (-32602) "Invalid params"
          (some (Json.str ("Unknown tool: " ++
            jsDisplayOpt (jsGetField p "name")))), []⟩
      | some tool =>
        match runHandler business tool (argsOrEmpty (jsGetField p "arguments")) with
        | (Except.error e, calls) =>
          ⟨createErrorResponse id (-32603) "Internal error"
            (some (Json.str ("Tool execution failed: " ++ e))), calls⟩
        | (Except.ok r, calls) =>
          ⟨mkResultResponse id (toolContentJson r), calls⟩
    else
      ⟨createErrorResponse id (-32602) "Invalid params"
        (some (Json.str "Tool name is required")), []⟩

/-- `HttpMcpProtocolHandler.handleResourceRead(id, params)`. -/
def handleResourceRead (business : String → Json → Except String String)
    (urlCheck : String → Bool) (nowIso : String) (id : Option Json)
    (params : Option Json) : HandlerOut :=
  match params with
  | none =>
    ⟨createErrorResponse id (-32603) "Internal error"
      (some (Json.str ("Resource read failed: " ++
        jsDestructureUndefMsg "uri" "params"))), []⟩
  | some p =>
    if p.isNull then
      ⟨createErrorResponse id (-32603) "Internal error"
        (some (Json.str ("Resource read failed: " ++
          jsDestructureMsg "uri" "params"))), []⟩
    else if jsTruthyOpt (jsGetField p "uri") then
      match jsGetField p "uri" with
      | some (Json.str "crypto://news/latest") =>
        (match findTool urlCheck (Json.str "get_top_crypto_news") with
         | some tool =>
           (match runHandler business tool (Json.obj [("count", Json.num 10)]) with
            | (Except.error e, calls) =>
              ⟨createErrorResponse id (-32603) "Internal error"
                (some (Json.str ("Resource read failed: " ++ e))), calls⟩
            | (Except.ok c, calls) =>
              ⟨mkResultResponse id (resourceContentsJson c), calls⟩)
         | none =>
           ⟨mkResultResponse id (resourceContentsJson "Latest news tool not available"), []⟩)
      | some (Json.str "crypto://news/high-impact") =>
        (match findTool urlCheck (Json.str "get_market_impact_news") with
         | some tool =>
           (match runHandler business tool (Json.obj [("min_impact_score", Json.num 70)]) with
            | (Except.error e, calls) =>
              ⟨createErrorResponse id (-32603) "Internal error"
                (some (Json.str ("Resource read failed: " ++ e))), calls⟩
            | (Except.ok c, calls) =>
              ⟨mkResultResponse id (resourceContentsJson c), calls⟩)
         | none =>
           ⟨mkResultResponse id (resourceContentsJson "High-impact news tool not available"), []⟩)
      | some (Json.str "crypto://market/summary") =>
        ⟨mkResultResponse id (resourceContentsJson (marketSummaryContent nowIso)), []⟩
      | _ =>
        ⟨createErrorResponse id (-32602) "Invalid params"
          (some (Json.str ("Unknown resource URI: " ++
            jsDisplayOpt (jsGetField p "uri")))), []⟩
    else
      ⟨createErrorResponse id (-32602) "Invalid params"
        (some (Json.str "Resource URI is required")), []⟩

/-- `HttpMcpProtocolHandler.handlePromptGet(id, params)`. -/
def handlePromptGet (nowIso : String) (id : Option Json)
    (params : Option Json) : HandlerOut :=
  match params with
  | none =>
    ⟨createErrorResponse id (-32603) "Internal error"
      (some (Json.str ("Prompt generation failed: " ++
        jsDestructureUndefMsg "name" "params"))), []⟩
  | some p =>
    if p.isNull then
      ⟨createErrorResponse id (-32603) "Internal error"
        (some (Json.str ("Prompt generation failed: " ++
          jsDestructureMsg "name" "params"))), []⟩
    else if jsTruthyOpt (jsGetField p "name") then
      match jsGetField p "name" with
      | some (Json.str "crypto_news_analysis") =>
        ⟨mkResultResponse id (Json.obj
          [("description", Json.str "Generated prompt for crypto_news_analysis"),
           ("messages", Json.arr [Json.obj [("role", Json.str "user"),
             ("content", Json.obj [("type", Json.str "text"),
               ("text", Json.str (cryptoNewsAnalysisPrompt
                 (match jsOptField (jsGetField p "arguments") "news_text" with
                  | some v => if jsTruthy v then jsDisplay v
                      else "[News article text here]"
                  | none => "[News article text here]")
                 (match jsOptField (jsGetField p "arguments") "include_sentiment" with
                  | some (Json.bool false) => false
                  | _ => true)))])]])]),
         []⟩
      | some (Json.str "market_summary_prompt") =>
        ⟨mkResultResponse id (Json.obj
          [("description", Json.str "Generated prompt for market_summary_prompt"),
           ("messages", Json.arr [Json.obj [("role", Json.str "user"),
             ("content", Json.obj [("type", Json.str "text"),
               ("text", Json.str (marketSummaryPrompt
                 (match jsOptField (jsGetField p "arguments") "time_range" with
                  | some v => if jsTruthy v then jsDisplay v else "24h"
                  | none => "24h") nowIso))])]])]),
         []⟩
      | _ =>
        ⟨createErrorResponse id (-32602) "Invalid params"
          (some (Json.str ("Unknown prompt: " ++
            jsDisplayOpt (jsGetField p "name")))), []⟩
    else
      ⟨createErrorResponse id (-32602) "Invalid params"
        (some (Json.str "Prompt name is required")), []⟩

/-- `HttpMcpProtocolHandler.handleJsonRpc(rpcRequest)`: envelope validation
(`jsonrpc === '2.0'`, truthy `method`) before method dispatch; destructuring
a `null` request throws into the surrounding catch, which answers with a
`-32603` response whose `id` is the literal `null`. -/
def handleJsonRpc (business : String → Json → Except String String)
    (urlCheck : String → Bool) (nowIso : String) (rpc : Json) : HandlerOut :=
  match rpc with
  | Json.null =>
    ⟨createErrorResponse (some Json.null) (-32603) "Internal error"
      (some (Json.str (jsDestructureMsg "jsonrpc" "rpcRequest"))), []⟩
  | _ =>
    if jsFieldIsStr rpc "jsonrpc" "2.0" then
      if jsTruthyOpt (jsGetField rpc "method") then
        match jsGetField rpc "method" with
        | some (Json.str "initialize") =>
          ⟨mkResultResponse (jsGetField rpc "id") initResultJson, []⟩
        | some (Json.str "tools/list") =>
          ⟨mkResultResponse (jsGetField rpc "id") (toolsListResult urlCheck), []⟩
        | some (Json.str "tools/call") =>
          handleToolCallHttp business urlCheck (jsGetField rpc "id")
            (jsGetField rpc "params")
        | some (Json.str "resources/list") =>
          ⟨mkResultResponse (jsGetField rpc "id") resourcesListResult, []⟩
        | some (Json.str "resources/read") =>
          handleResourceRead business urlCheck nowIso (jsGetField rpc "id")
            (jsGetField rpc "params")
        | some (Json.str "prompts/list") =>
          ⟨mkResultResponse (jsGetField rpc "id") promptsListResult, []⟩
        | some (Json.str "prompts/get") =>
          handlePromptGet nowIso (jsGetField rpc "id") (jsGetField rpc "params")
        | _ =>
          ⟨createErrorResponse (jsGetField rpc "id") (-32601) "Method not found"
            (some (Json.str ("Unknown method: " ++
              jsDisplayOpt (jsGetField rpc "method")))), []⟩
      else
        ⟨createErrorResponse (jsGetField rpc "id") (-32600) "Invalid Request"
          (some (Json.str "Method is required")), []⟩
    else
      ⟨createErrorResponse (jsGetField rpc "id") (-32600) "Invalid Request"
        (some (Json.str "JSON-RPC version must be 2.0")), []⟩

/-- HTTP status plus serialised body of one Express response. -/
structure HttpOut where
  status : Nat
  body : Json
  calls : List (String × Json)

/-- `HttpMcpProtocolHandler.handleHttpRequest`: single object → one response;
array → `Promise.all` over `handleJsonRpc` of each entry, order preserved;
missing/falsy body → a 400 `Invalid Request`. -/
def handleHttpRequest (business : String → Json → Except String String)
    (urlCheck : String → Bool) (nowIso : String) (body : Option Json) : HttpOut :=
  match body with
  | some (Json.arr es) =>
    ⟨200, Json.arr (es.map (fun e => (handleJsonRpc business urlCheck nowIso e).resp)),
      (es.map (fun e => (handleJsonRpc business urlCheck nowIso e).calls)).flatten⟩
  | some j =>
    if jsTruthy j then
      ⟨200, (handleJsonRpc business urlCheck nowIso j).resp,
        (handleJsonRpc business urlCheck nowIso j).calls⟩
    else
      ⟨400, createErrorResponse (some Json.null) (-32600) "Invalid Request"
        (some (Json.str "Request body is required")), []⟩
  | none =>
    ⟨400, createErrorResponse (some Json.null) (-32600) "Invalid Request"
      (some (Json.str "Request body is required")), []⟩

/-! ## REST adapter

Embeds `RestApiProtocolHandler` (src/src/protocols/rest-api.ts):
`handleToolRequest`, the single-tool execution route `handleToolExecution`
(with its message-substring status-code mapping) and the batch route
`handleBatchExecution` (`Promise.allSettled` plus the rebuild loop that
reads `requests[index].tool`). -/

/-- `RestApiProtocolHandler.handleToolRequest(toolName, params)`:
`Except.error` models a thrown exception (unknown tool, zod violation, or
business throw), carrying the message. -/
def restHandleToolRequest (business : String → Json → Except String String)
    (urlCheck : String → Bool) (toolName : Option Json) (params : Option Json) :
    Except String String × List (String × Json) :=
  match (match toolName with
         | some v => findTool urlCheck v
         | none => none) with
  | none => (Except.error ("Tool not found: " ++ jsDisplayOpt toolName), [])
  | some tool => runHandler business tool (argsOrEmpty params)

/-- One HTTP response of the REST adapter, plus the business-call log. -/
structure RestOut where
  status : Nat
  body : Json
  calls : List (String × Json)

/-- `RestApiProtocolHandler.handleToolExecution`: the route stack reaching it
is `optionalAuth` (which attaches `perms`) followed by this handler; the
attached permission set is never consulted, which the unused `perms`
argument makes explicit.  On a thrown error the HTTP status is chosen by
substring-matching the message. -/
def restToolExecution (business : String → Json → Except String String)
    (urlCheck : String → Bool) (_perms : List String) (toolName : String)
    (body : Json) (nowIso : String) (execMs : Int) : RestOut :=
  match restHandleToolRequest business urlCheck (some (Json.str toolName)) (some body) with
  | (Except.ok r, calls) =>
    ⟨200, Json.obj [("tool", Json.str toolName), ("result", Json.str r),
      ("timestamp", Json.str nowIso),
      ("executionTime", Json.str (toString execMs ++ "ms"))], calls⟩
  | (Except.error e, calls) =>
    ⟨(if jsIncludes e "not found" then 404
      else if jsIncludes e "Invalid" then 400 else 500),
     Json.obj [("error", Json.str "Tool execution failed"),
       ("tool", Json.str toolName), ("message", Json.str e),
       ("timestamp", Json.str nowIso)], calls⟩

/-- One settled entry of the batch `Promise.allSettled`: destructuring a
`null` sub-request throws, producing a rejection; otherwise the entry is the
fulfilled `{tool, result, status: 'fulfilled'}` object or the rejection
message of `handleToolRequest`. -/
def restBatchEntrySettle (business : String → Json → Except String String)
    (urlCheck : String → Bool) (request : Json) :
    Except String Json × List (String × Json) :=
  if request.isNull then (Except.error (jsDestructureMsg "tool" "request"), [])
  else
    match restHandleToolRequest business urlCheck
      (jsGetField request "tool") (jsGetField request "params") with
    | (Except.error e, calls) => (Except.error e, calls)
    | (Except.ok r, calls) =>
      (Except.ok (Json.obj (optEntry "tool" (jsGetField request "tool") ++
        [("result", Json.str r), ("status", Json.str "fulfilled")])), calls)

/-- The rebuild loop over the settled results: a rejected entry is rendered
as `{tool: requests[index].tool, error, status: 'rejected'}`, but when
`requests[index]` is `null` that property read itself throws, and the
exception escapes the whole route (`Except.error`). -/
def restBatchRebuild (requests : List Json) (settled : List (Except String Json)) :
    Except String (List Json) :=
  (requests.zip settled).mapM (fun rs =>
    match rs.2 with
    | Except.ok v => Except.ok v
    | Except.error e =>
      if rs.1.isNull then Except.error (jsMemberNullMsg "tool")
      else Except.ok (Json.obj (optEntry "tool" (jsGetField rs.1 "tool") ++
        [("error", Json.str e), ("status", Json.str "rejected")])))

/-- Entries of the batch response with a given `status` field value. -/
def countStatus (entries : List Json) (s : String) : Nat :=
  (entries.filter (fun e => jsFieldIsStr e "status" s)).length

/-- `RestApiProtocolHandler.handleBatchExecution(req.body)`. -/
def restBatch (business : String → Json → Except String String)
    (urlCheck : String → Bool) (nowIso : String) (body : Json) : RestOut :=
  match jsGetField body "requests" with
  | some (Json.arr rs) =>
    match restBatchRebuild rs
      (rs.map (fun r => (restBatchEntrySettle business urlCheck r).1)) with
    | Except.error m =>
      ⟨500, Json.obj [("error", Json.str "Batch execution failed"),
        ("message", Json.str m)],
       (rs.map (fun r => (restBatchEntrySettle business urlCheck r).2)).flatten⟩
    | Except.ok entries =>
      ⟨200, Json.obj [("batch", Json.arr entries),
        ("summary", Json.obj [("total", Json.num rs.length),
          ("successful", Json.num (countStatus entries "fulfilled")),
          ("failed", Json.num (countStatus entries "rejected"))]),
        ("timestamp", Json.str nowIso)],
       (rs.map (fun r => (restBatchEntrySettle business urlCheck r).2)).flatten⟩
  | _ =>
    ⟨400, Json.obj [("error", Json.str "Invalid batch request"),
      ("message", Json.str "requests must be an array")], []⟩

/-! ## Derived notions used by the statements below -/

/-- Does a serialised response object carry this top-level field? -/
def hasField (j : Json) (key : String) : Bool :=
  (jsGetField j key).isSome

/-- A JSON value built by one of the two response constructors of the HTTP
MCP handler. -/
def isRpcShaped (j : Json) : Prop :=
  (∃ id res, j = mkResultResponse id res) ∨
  (∃ id code msg data, j = createErrorResponse id code msg data)

/-- The `error.code` member of a response object, when present. -/
def respErrorCode (j : Json) : Option Json :=
  jsOptField (jsGetField j "error") "code"

/-- The outcome one REST batch sub-request resolves to on its own (its
fulfilled value, or its rejection rendered by the rebuild loop). -/
def restEntryResolve (business : String → Json → Except String String)
    (urlCheck : String → Bool) (request : Json) : Json :=
  match (restBatchEntrySettle business urlCheck request).1 with
  | Except.ok v => v
  | Except.error e =>
    Json.obj (optEntry "tool" (jsGetField request "tool") ++
      [("error", Json.str e), ("status", Json.str "rejected")])

/-- Sample external collaborators for the concrete evaluations: a business
layer answering `"ok"` to every tool, and a URL check accepting every
string. -/
def sampleBusiness : String → Json → Except String String :=
  fun _ _ => Except.ok "ok"

/-- See `sampleBusiness`. -/
def sampleUrlCheck : String → Bool :=
  fun _ => true

/-- A one-record credential store for concrete evaluations. -/
def sampleKeyStore : List ApiKeyRecord :=
  [{ id := "key-1", key := "HASH-1", name := "Demo API Key",
     permissions := ["read"], active := true }]

/-! ## Lemmas and theorems -/

lemma foldl_min_le_init (ts : List Int) (t : Int) : ts.foldl min t ≤ t := by
  induction ts generalizing t with
  | nil => simp
  | cons a as ih =>
    rw [List.foldl_cons]
    exact le_trans (ih (min t a)) (min_le_left t a)

lemma foldl_min_mem (l : List Int) : ∀ a : Int, l.foldl min a = a ∨ l.foldl min a ∈ l := by
  induction l with
  | nil => intro a; left; rfl
  | cons b bs ih =>
    intro a
    rw [List.foldl_cons]
    rcases ih (min a b) with h | h
    · rw [h]
      rcases min_cases a b with ⟨he, _⟩ | ⟨he, _⟩
      · left; exact he
      · right; rw [he]; exact List.mem_cons_self b bs
    · right; exact List.mem_cons_of_mem b h

lemma jsMathMin_mem {l : List Int} {m : Int} (h : jsMathMin l = some m) : m ∈ l := by
  match l with
  | [] => simp [jsMathMin] at h
  | t :: ts =>
    simp only [jsMathMin, Option.some.injEq] at h
    subst h
    rcases foldl_min_mem ts t with h2 | h2
    · rw [h2]; exact List.mem_cons_self t ts
    · exact List.mem_cons_of_mem t h2

lemma foldl_min_le_mem {l : List Int} : ∀ {a x : Int}, x ∈ l → l.foldl min a ≤ x := by
  induction l with
  | nil => intro a x hx; simp at hx
  | cons b bs ih =>
    intro a x hx
    rw [List.foldl_cons]
    rcases List.mem_cons.mp hx with rfl | hx2
    · exact le_trans (foldl_min_le_init bs (min a x)) (min_le_right a x)
    · exact ih hx2

lemma jsMathMin_le {l : List Int} {m : Int} (h : jsMathMin l = some m) :
    ∀ x ∈ l, m ≤ x := by
  match l with
  | [] => simp [jsMathMin] at h
  | t :: ts =>
    simp only [jsMathMin, Option.some.injEq] at h
    subst h
    intro x hx
    rcases List.mem_cons.mp hx with rfl | hx2
    · exact foldl_min_le_init ts x
    · exact foldl_min_le_mem hx2

/-- Core induction for the acceptance phase: starting from a window map whose
entry for `key` is `pre`, a batch of requests that all stay inside the window
of every earlier recorded timestamp and that fits under the cap is accepted
request by request, appending the timestamps in arrival order. -/
lemma swRun_all_accepted (windowMs : Int) (maxRequests : Nat) (key : String) :
    ∀ (ts : List Int) (windows : String → List Int) (pre : List Int),
      windows key = pre →
      (∀ t ∈ ts, ∀ p ∈ pre, p > t - windowMs) →
      List.Pairwise (fun a b => b - a < windowMs) ts →
      pre.length + ts.length ≤ maxRequests →
      (swRun windowMs maxRequests windows key ts).1 = List.replicate ts.length true ∧
      (swRun windowMs maxRequests windows key ts).2 key = pre ++ ts := by
  intro ts
  induction ts with
  | nil =>
    intro windows pre hpre _ _ _
    simp [swRun, hpre]
  | cons t rest ih =>
    intro windows pre hpre hwin hpair hlen
    have hfilter : swFilter windowMs t (windows key) = pre := by
      rw [hpre]
      unfold swFilter
      apply List.filter_eq_self.mpr
      intro p hp
      have := hwin t (List.mem_cons_self t rest) p hp
      simpa using by omega
    have hlt : pre.length < maxRequests := by
      simp only [List.length_cons] at hlen; omega
    have hstep : slidingWindowStep windowMs maxRequests windows key t =
        (SwResult.accepted ((maxRequests : Int) - (pre ++ [t]).length),
         fun k => if k = key then pre ++ [t] else windows k) := by
      unfold slidingWindowStep
      rw [hfilter]
      rw [if_neg (by omega)]
    have hkey2 : (fun k => if k = key then pre ++ [t] else windows k) key = pre ++ [t] := by
      simp
    have hwin2 : ∀ u ∈ rest, ∀ p ∈ pre ++ [t], p > u - windowMs := by
      intro u hu p hp
      rcases List.mem_append.mp hp with hp | hp
      · exact hwin u (List.mem_cons_of_mem t hu) p hp
      · have hpt : p = t := by simpa using hp
        have := (List.pairwise_cons.mp hpair).1 u hu
        omega
    have hlen2 : (pre ++ [t]).length + rest.length ≤ maxRequests := by
      simp only [List.length_append, List.length_cons, List.length_nil] at hlen ⊢
      omega
    have hrec := ih (fun k => if k = key then pre ++ [t] else windows k) (pre ++ [t])
      hkey2 hwin2 (List.pairwise_cons.mp hpair).2 hlen2
    constructor
    · show (swRun windowMs maxRequests windows key (t :: rest)).1 = _
      unfold swRun
      rw [hstep]
      simp only [List.length_cons, List.replicate_succ]
      exact congrArg _ hrec.1
    · show (swRun windowMs maxRequests windows key (t :: rest)).2 key = _
      unfold swRun
      rw [hstep]
      rw [hrec.2, List.append_assoc]
      rfl

/-- **C4.**  For a sliding-window limiter `(windowDuration=W, maxRequests=N)`
and one key: `N` requests arriving within `W` of each other are all accepted;
an `(N+1)`-th request still within the window of all of them is rejected
(state unchanged — not queued); and whenever any request is accepted, the
number of recorded timestamps for that key lying in `[now - W, now]` is at
most `N`. -/
theorem sliding_window_limit (windowMs : Int) (N : Nat) (key : String)
    (ts : List Int) (tNext : Int)
    (hlen : ts.length = N)
    (hpair : List.Pairwise (fun a b => b - a < windowMs) (ts ++ [tNext])) :
    (swRun windowMs N swEmpty key ts).1 = List.replicate N true ∧
    (∃ ra, slidingWindowStep windowMs N ((swRun windowMs N swEmpty key ts).2) key tNext
      = (SwResult.rejected ra, (swRun windowMs N swEmpty key ts).2)) ∧
    (∀ (windows : String → List Int) (k : String) (now : Int) (r : Int)
        (st2 : String → List Int),
      slidingWindowStep windowMs N windows k now = (SwResult.accepted r, st2) →
      ((st2 k).filter (fun t => now - windowMs ≤ t ∧ t ≤ now)).length ≤ N) := by
  have hpairts : List.Pairwise (fun a b => b - a < windowMs) ts :=
    (List.pairwise_append.mp hpair).1
  have hrun := swRun_all_accepted windowMs N key ts swEmpty [] rfl
    (by intro _ _ p hp; simp at hp) hpairts (by simp [hlen])
  refine ⟨by rw [hrun.1, hlen], ?_, ?_⟩
  · have hfilter : swFilter windowMs tNext ((swRun windowMs N swEmpty key ts).2 key) = ts := by
      rw [hrun.2]
      unfold swFilter
      simp only [List.nil_append]
      apply List.filter_eq_self.mpr
      intro a ha
      have := (List.pairwise_append.mp hpair).2.2 a ha tNext (List.mem_singleton.mpr rfl)
      simpa using by omega
    refine ⟨(jsMathMin ts).map
      (fun oldest => ((oldest + windowMs - tNext).toNat + 999) / 1000), ?_⟩
    simp only [slidingWindowStep]
    rw [hfilter, if_pos (by omega)]
  · intro windows k now r st2 hstep
    simp only [slidingWindowStep] at hstep
    split at hstep
    · exact absurd (congrArg Prod.fst hstep) (by simp)
    · rename_i hno
      have hst2 : st2 k = swFilter windowMs now (windows k) ++ [now] := by
        have := congrArg (fun p => p.2 k) hstep
        simpa using this.symm
      rw [hst2]
      calc ((swFilter windowMs now (windows k) ++ [now]).filter
              (fun t => now - windowMs ≤ t ∧ t ≤ now)).length
          ≤ (swFilter windowMs now (windows k) ++ [now]).length :=
            List.length_filter_le _ _
        _ ≤ N := by
            simp only [List.length_append, List.length_cons, List.length_nil]
            omega

/-- Witness for `sliding_window_limit`: window 60000 ms, cap 2, requests at
times 1000 and 2000, third request at 3000 rejected. -/
theorem sliding_window_limit_witness :
    ([(1000 : Int), 2000].length = 2 ∧
      List.Pairwise (fun a b => b - a < (60000 : Int)) ([1000, 2000] ++ [3000])) ∧
    (swRun 60000 2 swEmpty "api-key-1" [1000, 2000]).1 = List.replicate 2 true := by
  refine ⟨⟨by decide, by decide⟩, ?_⟩
  exact (sliding_window_limit 60000 2 "api-key-1" [1000, 2000] 3000
    (by decide) (by decide)).1

/-- **C9.**  When the sliding-window limiter rejects a request, the
`retryAfter` hint exists and, provided the window is a whole number of
seconds, every recorded timestamp is in the past, and the cap is at least 1,
the hint never exceeds the window expressed in seconds. -/
theorem sliding_window_retry_after_bound (windowMs : Int) (maxRequests : Nat)
    (windows : String → List Int) (key : String) (now : Int)
    (ra : Option Nat)
    (hdvd : (1000 : Int) ∣ windowMs)
    (hmax : 1 ≤ maxRequests)
    (hpast : ∀ t ∈ windows key, t ≤ now)
    (hrej : (slidingWindowStep windowMs maxRequests windows key now).1
      = SwResult.rejected ra) :
    ∃ r : Nat, ra = some r ∧ (r : Int) * 1000 ≤ windowMs := by
  simp only [slidingWindowStep, swFilter] at hrej
  split at hrej
  · rename_i hge
    simp only [SwResult.rejected.injEq] at hrej
    have hne : (windows key).filter (fun t => now - windowMs < t) ≠ [] := by
      intro hnil
      rw [hnil] at hge
      simp at hge
      omega
    obtain ⟨m, hm⟩ : ∃ m,
        jsMathMin ((windows key).filter (fun t => now - windowMs < t)) = some m := by
      match hr : (windows key).filter (fun t => now - windowMs < t), hne with
      | t :: ts, _ => exact ⟨ts.foldl min t, rfl⟩
    have hmem := jsMathMin_mem hm
    have hmlow : now - windowMs < m := by
      have := List.of_mem_filter hmem
      simpa using this
    have hmhigh : m ≤ now := hpast m (List.mem_of_mem_filter hmem)
    have hW : 0 < windowMs := by omega
    obtain ⟨q, hq⟩ := hdvd
    have hq1 : 1 ≤ q := by nlinarith
    refine ⟨((m + windowMs - now).toNat + 999) / 1000, ?_, ?_⟩
    · rw [← hrej, hm]
      rfl
    · have hd0 : 0 < m + windowMs - now := by omega
      have hdW : m + windowMs - now ≤ windowMs := by omega
      have hdn : (((m + windowMs - now).toNat : Int)) = m + windowMs - now :=
        Int.toNat_of_nonneg (le_of_lt hd0)
      have hqn1 : ((q.toNat : Int)) = q := Int.toNat_of_nonneg (by omega)
      have hdnq : (m + windowMs - now).toNat ≤ 1000 * q.toNat := by
        have : m + windowMs - now ≤ 1000 * q := by rw [← hq]; exact hdW
        omega
      have hdivle : ((m + windowMs - now).toNat + 999) / 1000 ≤ q.toNat := by
        have h2 := (Nat.div_lt_iff_lt_mul (by omega : 0 < 1000)).mpr
          (by omega : (m + windowMs - now).toNat + 999 < (q.toNat + 1) * 1000)
        omega
      have hcast : ((((m + windowMs - now).toNat + 999) / 1000 : Nat) : Int)
          ≤ (q.toNat : Int) := by exact_mod_cast hdivle
      calc ((((m + windowMs - now).toNat + 999) / 1000 : Nat) : Int) * 1000
          ≤ (q.toNat : Int) * 1000 := by nlinarith
        _ = windowMs := by rw [hqn1, hq]; ring
  · simp at hrej

/-- Witness for `sliding_window_retry_after_bound`: 60-second window, cap 2,
two recorded requests, rejection at time 3000 carries a hint of at most 60
seconds. -/
theorem sliding_window_retry_after_bound_witness :
    ∃ r : Nat,
      (SwResult.rejected (some 58) : SwResult) = SwResult.rejected (some r) ∧
      (r : Int) * 1000 ≤ 60000 := by
  obtain ⟨r, hr, hb⟩ := sliding_window_retry_after_bound 60000 2
    (fun k => if k = "api-key-1" then [1000, 2000] else []) "api-key-1" 3000
    (some 58) (by decide) (by decide)
    (by intro t ht; simp at ht; omega)
    (by decide)
  exact ⟨r, by rw [hr], hb⟩


lemma findTool_name (urlCheck : String → Bool) (tool : ToolDef)
    (ht : tool ∈ universalTools urlCheck) :
    findTool urlCheck (Json.str tool.name) = some tool := by
  simp only [universalTools, List.mem_cons, List.not_mem_nil, or_false] at ht
  rcases ht with rfl | rfl | rfl | rfl | rfl <;> rfl

/-- **C1 (counterexample).**  The claim says a schema-violating `tools/call`
returns an `InvalidParams` failure (JSON-RPC code `-32602`).  Calling
`get_top_crypto_news` with `count: 0` (below the schema minimum of 1)
instead produces the code `-32603` (`Internal error`,
`Tool execution failed: …`): the zod violation is thrown from inside the
handler and caught by the generic catch block, not mapped to
`InvalidParams`. -/
theorem schema_violation_not_invalid_params :
    respErrorCode (handleToolCallHttp sampleBusiness sampleUrlCheck
        (some (Json.num 1))
        (some (Json.obj [("name", Json.str "get_top_crypto_news"),
          ("arguments", Json.obj [("count", Json.num 0)])]))).resp
      = some (Json.num (-32603)) ∧
    respErrorCode (handleToolCallHttp sampleBusiness sampleUrlCheck
        (some (Json.num 1))
        (some (Json.obj [("name", Json.str "get_top_crypto_news"),
          ("arguments", Json.obj [("count", Json.num 0)])]))).resp
      ≠ some (Json.num (-32602)) ∧
    (handleToolCallHttp sampleBusiness sampleUrlCheck (some (Json.num 1))
        (some (Json.obj [("name", Json.str "get_top_crypto_news"),
          ("arguments", Json.obj [("count", Json.num 0)])]))).calls = [] := by
  refine ⟨rfl, ?_, rfl⟩
  intro h
  rw [show respErrorCode (handleToolCallHttp sampleBusiness sampleUrlCheck
      (some (Json.num 1))
      (some (Json.obj [("name", Json.str "get_top_crypto_news"),
        ("arguments", Json.obj [("count", Json.num 0)])]))).resp
    = some (Json.num (-32603)) from rfl] at h
  injection h with h1
  injection h1 with h2
  omega

/-- **C1 (amended).**  For every registered tool, invoking `tools/call` on
the HTTP MCP adapter with truthy arguments that violate the tool's zod
schema yields a `-32603` `Internal error` response carrying
`Tool execution failed:` plus the first violated check, and the business
logic behind the validation is never invoked — for every possible business
implementation.  Moreover schema validation applies the declared defaults
before the business logic runs: parsing `{}` for `get_top_crypto_news`
yields the fully defaulted parameter object. -/
theorem schema_validation_guards_business :
    (∀ (business : String → Json → Except String String)
       (urlCheck : String → Bool) (id : Option Json) (tool : ToolDef)
       (args : Json) (e : String),
      tool ∈ universalTools urlCheck →
      jsTruthy args = true →
      tool.validate args = Except.error e →
      handleToolCallHttp business urlCheck id
        (some (Json.obj [("name", Json.str tool.name), ("arguments", args)]))
      = ⟨createErrorResponse id (-32603) "Internal error"
          (some (Json.str ("Tool execution failed: " ++ e))), []⟩) ∧
    validateGetTopCryptoNews (Json.obj []) = Except.ok (Json.obj
      [("count", Json.num 10), ("filter_impact", Json.str "all"),
       ("include_sentiment", Json.bool true), ("max_age_hours", Json.num 24),
       ("real_time", Json.bool false)]) := by
  refine ⟨?_, rfl⟩
  intro business urlCheck id tool args e ht hargs hval
  have hae : argsOrEmpty (some args) = args := by
    simp [argsOrEmpty, hargs]
  simp only [universalTools, List.mem_cons, List.not_mem_nil, or_false] at ht
  rcases ht with rfl | rfl | rfl | rfl | rfl <;>
    · show (match runHandler business _ (argsOrEmpty (some args)) with
        | (Except.error e2, calls) =>
          (⟨createErrorResponse id (-32603) "Internal error"
            (some (Json.str ("Tool execution failed: " ++ e2))), calls⟩ : HandlerOut)
        | (Except.ok r, calls) =>
          ⟨mkResultResponse id (toolContentJson r), calls⟩) = _
      rw [hae]
      rw [show runHandler business _ args = (Except.error e, []) from by
        unfold runHandler; rw [hval]]

/-- Witness for `schema_validation_guards_business` at
`get_top_crypto_news` with the violating argument `count: 0`. -/
theorem schema_validation_guards_business_witness :
    toolGetTopCryptoNews ∈ universalTools sampleUrlCheck ∧
    jsTruthy (Json.obj [("count", Json.num 0)]) = true ∧
    toolGetTopCryptoNews.validate (Json.obj [("count", Json.num 0)])
      = Except.error "count: Number must be greater than or equal to 1" ∧
    (handleToolCallHttp sampleBusiness sampleUrlCheck (some (Json.num 1))
        (some (Json.obj [("name", Json.str "get_top_crypto_news"),
          ("arguments", Json.obj [("count", Json.num 0)])]))).calls = [] := by
  have h := schema_validation_guards_business.1 sampleBusiness sampleUrlCheck
    (some (Json.num 1)) toolGetTopCryptoNews (Json.obj [("count", Json.num 0)])
    "count: Number must be greater than or equal to 1"
    (List.mem_cons_self _ _) rfl rfl
  exact ⟨List.mem_cons_self _ _, rfl, rfl, congrArg HandlerOut.calls h⟩

/-- **C2 (counterexample).**  The claim says a caller with the empty
permission set invoking a tool requiring `read` receives `Forbidden`.  On
the REST adapter the invocation instead runs the handler and returns its
result with status 200: the caller's permission set plays no role. -/
theorem empty_permissions_tool_executes :
    restToolExecution sampleBusiness sampleUrlCheck [] "get_top_crypto_news"
      (Json.obj []) "T" 0
    = ⟨200, Json.obj [("tool", Json.str "get_top_crypto_news"),
        ("result", Json.str "ok"), ("timestamp", Json.str "T"),
        ("executionTime", Json.str "0ms")],
       [("get_top_crypto_news", Json.obj
         [("count", Json.num 10), ("filter_impact", Json.str "all"),
          ("include_sentiment", Json.bool true), ("max_age_hours", Json.num 24),
          ("real_time", Json.bool false)])]⟩ ∧
    (restToolExecution sampleBusiness sampleUrlCheck [] "get_top_crypto_news"
      (Json.obj []) "T" 0).status ≠ 403 := by
  exact ⟨rfl, by decide⟩

/-- **C2 (amended).**  Tool invocation performs no per-tool permission
check: for every registered tool and every caller permission set — the
empty set included — a request whose arguments validate runs the business
handler and returns its result with status 200.  `Forbidden` (403) is never
produced on this path; the `requirePermission` middleware that would
produce it is mounted only on the admin statistics route. -/
theorem no_permission_gate_on_tool_invocation
    (business : String → Json → Except String String)
    (urlCheck : String → Bool) (perms : List String) (tool : ToolDef)
    (body parsed : Json) (r nowIso : String) (execMs : Int)
    (ht : tool ∈ universalTools urlCheck)
    (hval : tool.validate (argsOrEmpty (some body)) = Except.ok parsed)
    (hbiz : business tool.name parsed = Except.ok r) :
    restToolExecution business urlCheck perms tool.name body nowIso execMs
      = ⟨200, Json.obj [("tool", Json.str tool.name), ("result", Json.str r),
          ("timestamp", Json.str nowIso),
          ("executionTime", Json.str (toString execMs ++ "ms"))],
         [(tool.name, parsed)]⟩ := by
  have hfind := findTool_name urlCheck tool ht
  unfold restToolExecution restHandleToolRequest
  dsimp only
  rw [hfind]
  dsimp only
  rw [show runHandler business tool (argsOrEmpty (some body))
      = (Except.ok r, [(tool.name, parsed)]) from by
    unfold runHandler; rw [hval]; dsimp only; rw [hbiz]]

/-- Witness for `no_permission_gate_on_tool_invocation` with the empty
permission set. -/
theorem no_permission_gate_on_tool_invocation_witness :
    toolGetTopCryptoNews ∈ universalTools sampleUrlCheck ∧
    toolGetTopCryptoNews.validate (argsOrEmpty (some (Json.obj [])))
      = Except.ok (Json.obj
        [("count", Json.num 10), ("filter_impact", Json.str "all"),
         ("include_sentiment", Json.bool true), ("max_age_hours", Json.num 24),
         ("real_time", Json.bool false)]) ∧
    sampleBusiness toolGetTopCryptoNews.name (Json.obj
        [("count", Json.num 10), ("filter_impact", Json.str "all"),
         ("include_sentiment", Json.bool true), ("max_age_hours", Json.num 24),
         ("real_time", Json.bool false)]) = Except.ok "ok" ∧
    (restToolExecution sampleBusiness sampleUrlCheck []
      toolGetTopCryptoNews.name (Json.obj []) "T" 0).status = 200 := by
  have h := no_permission_gate_on_tool_invocation sampleBusiness sampleUrlCheck
    [] toolGetTopCryptoNews (Json.obj [])
    (Json.obj [("count", Json.num 10), ("filter_impact", Json.str "all"),
      ("include_sentiment", Json.bool true), ("max_age_hours", Json.num 24),
      ("real_time", Json.bool false)]) "ok" "T" 0
    (List.mem_cons_self _ _) rfl rfl
  exact ⟨List.mem_cons_self _ _, rfl, rfl, congrArg RestOut.status h⟩

/-- **C3 (code bug).**  After `revoke` flips `active := false`, the
`AuthMiddleware.verifyApiKey` path (HTTP JSON-RPC and REST adapters)
refuses the credential for every possible secret comparison, but the
WebSocket adapter's own `validateApiKey` accepts any string longer than 10
characters without consulting the store, so the same revoked raw key still
authenticates a WebSocket connection — contradicting the invariant that a
deactivated credential must fail all subsequent authentication checks on
every adapter. -/
theorem ws_accepts_revoked_credential :
    (∀ compare : String → String → Bool,
      verifyApiKey compare (revokeApiKey sampleKeyStore "key-1")
        "raw-secret-12345" = none) ∧
    (revokeApiKey sampleKeyStore "key-1").all (fun r => !r.active) = true ∧
    wsValidateApiKey "raw-secret-12345" = true ∧
    wsAuthenticateConnection (fun _ => false) (some "raw-secret-12345") none
      = true := by
  refine ⟨?_, rfl, rfl, rfl⟩
  intro compare
  show List.find? _ _ = none
  simp [sampleKeyStore, revokeApiKey, Bool.and_false]

/-- **C5 (counterexample).**  The claim says a failure in one REST batch
entry never aborts or loses the others.  A batch of two sub-requests whose
second entry is JSON `null` instead makes the rebuild loop read
`requests[index].tool` on `null`, throwing: the whole route answers a
single 500 `Batch execution failed` body with no per-entry results at all —
both entries are lost. -/
theorem rest_batch_null_entry_aborts_batch :
    (restBatch sampleBusiness sampleUrlCheck "T"
      (Json.obj [("requests", Json.arr
        [Json.obj [("tool", Json.str "get_top_crypto_news"),
           ("params", Json.obj [])],
         Json.null])])).status = 500 ∧
    (restBatch sampleBusiness sampleUrlCheck "T"
      (Json.obj [("requests", Json.arr
        [Json.obj [("tool", Json.str "get_top_crypto_news"),
           ("params", Json.obj [])],
         Json.null])])).body
      = Json.obj [("error", Json.str "Batch execution failed"),
          ("message", Json.str (jsMemberNullMsg "tool"))] ∧
    jsGetField (restBatch sampleBusiness sampleUrlCheck "T"
      (Json.obj [("requests", Json.arr
        [Json.obj [("tool", Json.str "get_top_crypto_news"),
           ("params", Json.obj [])],
         Json.null])])).body "batch" = none := by
  exact ⟨rfl, rfl, rfl⟩

lemma restBatchRebuild_nonnull (business : String → Json → Except String String)
    (urlCheck : String → Bool) :
    ∀ rs : List Json, (∀ r ∈ rs, r.isNull = false) →
      restBatchRebuild rs (rs.map (fun r => (restBatchEntrySettle business urlCheck r).1))
        = Except.ok (rs.map (restEntryResolve business urlCheck)) := by
  intro rs
  induction rs with
  | nil => intro _; rfl
  | cons r rest ih =>
    intro hnn
    have hr := hnn r (List.mem_cons_self r rest)
    have hrest := ih (fun x hx => hnn x (List.mem_cons_of_mem r hx))
    unfold restBatchRebuild at hrest ⊢
    simp only [List.map_cons, List.zip_cons_cons, List.mapM_cons, hrest]
    cases hs : (restBatchEntrySettle business urlCheck r).1 with
    | ok v =>
      simp only [restEntryResolve, hs]
      rfl
    | error e =>
      simp only [restEntryResolve, hs, hr, Bool.false_eq_true, if_false]
      rfl

/-- **C5 (amended).**  Batches resolve entry-wise and in order on both
HTTP-facing adapters, with the REST side additionally requiring that no
sub-request entry be JSON `null`: a JSON-RPC batch of `k` entries posted to
the HTTP MCP route yields exactly `k` responses, the `i`-th being
`handleJsonRpc` of the `i`-th input (so one bad entry only affects its own
slot); a REST batch whose `requests` entries are all non-`null` yields a
200 response whose `batch` array has exactly `k` entries, the `i`-th being
the independent resolution of the `i`-th sub-request (fulfilled value or
rendered rejection).  A `null` REST entry aborts the whole batch (see the
counterexample). -/
theorem batch_entries_isolated_and_ordered :
    (∀ (business : String → Json → Except String String)
       (urlCheck : String → Bool) (nowIso : String) (es : List Json),
      (handleHttpRequest business urlCheck nowIso (some (Json.arr es))).status = 200 ∧
      (handleHttpRequest business urlCheck nowIso (some (Json.arr es))).body
        = Json.arr (es.map (fun e => (handleJsonRpc business urlCheck nowIso e).resp)) ∧
      (es.map (fun e => (handleJsonRpc business urlCheck nowIso e).resp)).length
        = es.length) ∧
    (∀ (business : String → Json → Except String String)
       (urlCheck : String → Bool) (nowIso : String) (rs : List Json),
      (∀ r ∈ rs, r.isNull = false) →
      (restBatch business urlCheck nowIso
        (Json.obj [("requests", Json.arr rs)])).status = 200 ∧
      jsGetField (restBatch business urlCheck nowIso
        (Json.obj [("requests", Json.arr rs)])).body "batch"
        = some (Json.arr (rs.map (restEntryResolve business urlCheck))) ∧
      (rs.map (restEntryResolve business urlCheck)).length = rs.length) := by
  constructor
  · intro business urlCheck nowIso es
    exact ⟨rfl, rfl, List.length_map es _⟩
  · intro business urlCheck nowIso rs hnn
    have hre := restBatchRebuild_nonnull business urlCheck rs hnn
    have h0 : restBatch business urlCheck nowIso (Json.obj [("requests", Json.arr rs)])
        = match restBatchRebuild rs
            (rs.map (fun r => (restBatchEntrySettle business urlCheck r).1)) with
          | Except.error m =>
            ⟨500, Json.obj [("error", Json.str "Batch execution failed"),
              ("message", Json.str m)],
             (rs.map (fun r => (restBatchEntrySettle business urlCheck r).2)).flatten⟩
          | Except.ok entries =>
            ⟨200, Json.obj [("batch", Json.arr entries),
              ("summary", Json.obj [("total", Json.num rs.length),
                ("successful", Json.num (countStatus entries "fulfilled")),
                ("failed", Json.num (countStatus entries "rejected"))]),
              ("timestamp", Json.str nowIso)],
             (rs.map (fun r => (restBatchEntrySettle business urlCheck r).2)).flatten⟩ := rfl
    refine ⟨?_, ?_, List.length_map rs _⟩
    · rw [h0, hre]
    · rw [h0, hre]
      rfl

/-- Witness for `batch_entries_isolated_and_ordered`: an HTTP batch with a
valid and a malformed entry keeps both slots, and a REST batch with one
unknown tool and one valid call returns both entries. -/
theorem batch_entries_isolated_and_ordered_witness :
    ([Json.obj [("tool", Json.str "nope")],
      Json.obj [("tool", Json.str "get_top_crypto_news"),
        ("params", Json.obj [])]].all (fun r => !r.isNull)) = true ∧
    (handleHttpRequest sampleBusiness sampleUrlCheck "T"
      (some (Json.arr [Json.obj [("jsonrpc", Json.str "2.0"), ("id", Json.num 1),
        ("method", Json.str "initialize")], Json.null]))).status = 200 ∧
    (restBatch sampleBusiness sampleUrlCheck "T"
      (Json.obj [("requests", Json.arr
        [Json.obj [("tool", Json.str "nope")],
         Json.obj [("tool", Json.str "get_top_crypto_news"),
           ("params", Json.obj [])]])])).status = 200 := by
  refine ⟨by decide, ?_, ?_⟩
  · exact (batch_entries_isolated_and_ordered.1 sampleBusiness sampleUrlCheck "T"
      [Json.obj [("jsonrpc", Json.str "2.0"), ("id", Json.num 1),
        ("method", Json.str "initialize")], Json.null]).1
  · exact (batch_entries_isolated_and_ordered.2 sampleBusiness sampleUrlCheck "T"
      [Json.obj [("tool", Json.str "nope")],
       Json.obj [("tool", Json.str "get_top_crypto_news"),
         ("params", Json.obj [])]]
      (by intro r hr; fin_cases hr <;> rfl)).1

/-- **C6.**  A JSON-RPC request object whose `jsonrpc` member is not the
string literal `"2.0"` is answered by the HTTP MCP adapter with the
structured `Invalid Request` error, code `-32600`, echoing the request id,
before any method dispatch: no business handler runs. -/
theorem invalid_version_rejected_before_dispatch
    (business : String → Json → Except String String)
    (urlCheck : String → Bool) (nowIso : String)
    (fields : List (String × Json))
    (hver : jsFieldIsStr (Json.obj fields) "jsonrpc" "2.0" = false) :
    (handleJsonRpc business urlCheck nowIso (Json.obj fields)).resp
      = createErrorResponse (Json.lookupField fields "id") (-32600)
          "Invalid Request" (some (Json.str "JSON-RPC version must be 2.0")) ∧
    (handleJsonRpc business urlCheck nowIso (Json.obj fields)).calls = [] := by
  unfold handleJsonRpc
  rw [hver]
  exact ⟨rfl, rfl⟩

/-- Witness for `invalid_version_rejected_before_dispatch`: version tag
`"1.0"` with a `tools/call` method. -/
theorem invalid_version_rejected_before_dispatch_witness :
    jsFieldIsStr (Json.obj [("jsonrpc", Json.str "1.0"), ("id", Json.num 1),
      ("method", Json.str "tools/call")]) "jsonrpc" "2.0" = false ∧
    (handleJsonRpc sampleBusiness sampleUrlCheck "T"
      (Json.obj [("jsonrpc", Json.str "1.0"), ("id", Json.num 1),
        ("method", Json.str "tools/call")])).resp
      = createErrorResponse (some (Json.num 1)) (-32600) "Invalid Request"
          (some (Json.str "JSON-RPC version must be 2.0")) ∧
    (handleJsonRpc sampleBusiness sampleUrlCheck "T"
      (Json.obj [("jsonrpc", Json.str "1.0"), ("id", Json.num 1),
        ("method", Json.str "tools/call")])).calls = [] := by
  refine ⟨rfl, ?_, ?_⟩
  · exact (invalid_version_rejected_before_dispatch sampleBusiness sampleUrlCheck
      "T" [("jsonrpc", Json.str "1.0"), ("id", Json.num 1),
        ("method", Json.str "tools/call")] rfl).1
  · exact (invalid_version_rejected_before_dispatch sampleBusiness sampleUrlCheck
      "T" [("jsonrpc", Json.str "1.0"), ("id", Json.num 1),
        ("method", Json.str "tools/call")] rfl).2

/-- **C7.**  A live, open connection is pinged in a heartbeat cycle; if it
never answers (its id is absent from the pong events arriving before the
next cycle), the next cycle terminates it: it is removed from the
connection map, it is not pinged again, and neither `broadcast` nor
`broadcastToSubscribers` delivers any further message to it. -/
theorem missed_heartbeat_eviction (st : WsState) (c : WsConn)
    (pongs : List String)
    (hmem : c ∈ st.connections) (halive : c.isAlive = true)
    (hopen : c.isOpen = true) (hnp : c.id ∉ pongs) :
    c.id ∈ (heartbeatStep st).2 ∧
    c.id ∉ ((heartbeatStep (applyPongs (heartbeatStep st).1 pongs)).1).connections.map
      (fun x => x.id) ∧
    c.id ∉ (heartbeatStep (applyPongs (heartbeatStep st).1 pongs)).2 ∧
    (∀ topic,
      c.id ∉ broadcastTargets (heartbeatStep (applyPongs (heartbeatStep st).1 pongs)).1 ∧
      c.id ∉ subscriberTargets (heartbeatStep (applyPongs (heartbeatStep st).1 pongs)).1 topic) := by
  have hdead : ∀ e ∈ (applyPongs (heartbeatStep st).1 pongs).connections,
      e.id = c.id → e.isAlive = false := by
    intro e he heq
    simp only [applyPongs, heartbeatStep, List.mem_map, List.mem_filter] at he
    obtain ⟨y, hy, rfl⟩ := he
    obtain ⟨z, hz, rfl⟩ := hy
    by_cases hzp : ({ z with isAlive := false } : WsConn).id ∈ pongs
    · exfalso
      simp only [hzp, if_true] at heq
      exact hnp (by simpa [heq] using hzp)
    · simp [hzp]
  have hnotin2 : ∀ x ∈ (heartbeatStep (applyPongs (heartbeatStep st).1 pongs)).1.connections,
      x.id ≠ c.id := by
    intro x hx
    simp only [heartbeatStep, List.mem_map, List.mem_filter] at hx
    obtain ⟨y, ⟨hy, hyalive⟩, rfl⟩ := hx
    intro heq
    have hyd := hdead y hy heq
    rw [hyd] at hyalive
    exact Bool.false_ne_true hyalive
  refine ⟨?_, ?_, ?_, ?_⟩
  · simp only [heartbeatStep, List.mem_map, List.mem_filter]
    exact ⟨c, ⟨⟨hmem, halive⟩, hopen⟩, rfl⟩
  · intro h
    obtain ⟨x, hx, heq⟩ := List.mem_map.mp h
    exact hnotin2 x hx heq
  · intro h
    simp only [heartbeatStep, List.mem_map, List.mem_filter] at h
    obtain ⟨y, ⟨⟨hy, hyal⟩, hyop⟩, heq⟩ := h
    have hfd := hdead y hy heq
    rw [hfd] at hyal
    exact Bool.false_ne_true hyal
  · intro topic
    constructor
    · intro h
      simp only [broadcastTargets, List.mem_map, List.mem_filter] at h
      obtain ⟨y, ⟨hy, hyop⟩, heq⟩ := h
      exact hnotin2 y hy heq
    · intro h
      simp only [subscriberTargets, List.mem_map, List.mem_filter] at h
      obtain ⟨y, ⟨hy, hsub⟩, heq⟩ := h
      exact hnotin2 y hy heq

/-- Witness for `missed_heartbeat_eviction`: connection `c1` never pongs
while `c2` does; after one missed cycle `c1` is evicted, unpinged and
unreachable by broadcasts. -/
theorem missed_heartbeat_eviction_witness :
    (⟨"c1", true, true, ["news"]⟩ : WsConn)
      ∈ (WsState.mk [⟨"c1", true, true, ["news"]⟩, ⟨"c2", true, true, []⟩]).connections ∧
    "c1" ∉ ["c2"] ∧
    "c1" ∈ (heartbeatStep (WsState.mk
      [⟨"c1", true, true, ["news"]⟩, ⟨"c2", true, true, []⟩])).2 ∧
    "c1" ∉ (heartbeatStep (applyPongs (heartbeatStep (WsState.mk
      [⟨"c1", true, true, ["news"]⟩, ⟨"c2", true, true, []⟩])).1 ["c2"])).2 ∧
    "c1" ∉ broadcastTargets (heartbeatStep (applyPongs (heartbeatStep (WsState.mk
      [⟨"c1", true, true, ["news"]⟩, ⟨"c2", true, true, []⟩])).1 ["c2"])).1 := by
  have h := missed_heartbeat_eviction
    (WsState.mk [⟨"c1", true, true, ["news"]⟩, ⟨"c2", true, true, []⟩])
    ⟨"c1", true, true, ["news"]⟩ ["c2"]
    (List.mem_cons_self _ _) rfl rfl (by decide)
  exact ⟨List.mem_cons_self _ _, by decide, h.1, h.2.2.1, (h.2.2.2 "news").1⟩

/-- **C8 (counterexample).**  The claim says every streaming call receives
a terminal result for every tool name.  Streaming `search_crypto_news`
instead gets exactly one message — the initial `started` response — and no
terminal result ever follows. -/
theorem streaming_other_tool_gets_no_terminal :
    wsStreamCall sampleBusiness sampleUrlCheck (some (Json.num 7))
      (Json.obj [("name", Json.str "search_crypto_news")])
    = ([wsStreamStarted (some (Json.num 7))], none) ∧
    (wsStreamCall sampleBusiness sampleUrlCheck (some (Json.num 7))
      (Json.obj [("name", Json.str "search_crypto_news")])).1.length = 1 := by
  exact ⟨rfl, rfl⟩

lemma wsHandleToolCall_single (business : String → Json → Except String String)
    (urlCheck : String → Bool) (id : Option Json) (params : Json)
    (hnn : params.isNull = false) :
    ∃ m, wsHandleToolCall business urlCheck id params = ([m], none) := by
  unfold wsHandleToolCall
  rw [hnn]
  simp only [Bool.false_eq_true, if_false]
  repeat' split
  all_goals exact ⟨_, rfl⟩

/-- **C8 (amended).**  On a streaming call whose params destructure
(`params` is not `null`): when the tool is `get_top_crypto_news`, the
message sequence is exactly the `started` response, then the five progress
messages, then one terminal message (the tool result or error), so every
progress message precedes the terminal one; for every other tool name only
the `started` response is sent and no terminal result follows. -/
theorem streaming_progress_before_terminal :
    (∀ (business : String → Json → Except String String)
       (urlCheck : String → Bool) (id : Option Json) (params : Json),
      params.isNull = false →
      jsFieldIsStr params "name" "get_top_crypto_news" = true →
      ∃ terminal, wsStreamCall business urlCheck id params
        = (wsStreamStarted id :: (wsProgressMsgs id ++ [terminal]), none)) ∧
    (∀ (business : String → Json → Except String String)
       (urlCheck : String → Bool) (id : Option Json) (params : Json),
      params.isNull = false →
      jsFieldIsStr params "name" "get_top_crypto_news" = false →
      wsStreamCall business urlCheck id params = ([wsStreamStarted id], none)) := by
  constructor
  · intro business urlCheck id params hnn hname
    obtain ⟨m, hm⟩ := wsHandleToolCall_single business urlCheck id params hnn
    refine ⟨m, ?_⟩
    unfold wsStreamCall
    rw [hnn, hname]
    simp [hm]
  · intro business urlCheck id params hnn hname
    unfold wsStreamCall
    rw [hnn, hname]
    simp

/-- Witness for `streaming_progress_before_terminal`: a streaming call of
`get_top_crypto_news` emits exactly 7 messages (started, 5 progress, 1
terminal). -/
theorem streaming_progress_before_terminal_witness :
    (Json.obj [("name", Json.str "get_top_crypto_news")]).isNull = false ∧
    jsFieldIsStr (Json.obj [("name", Json.str "get_top_crypto_news")])
      "name" "get_top_crypto_news" = true ∧
    (wsStreamCall sampleBusiness sampleUrlCheck (some (Json.num 7))
      (Json.obj [("name", Json.str "get_top_crypto_news")])).1.length = 7 := by
  refine ⟨rfl, rfl, ?_⟩
  obtain ⟨t, ht⟩ := streaming_progress_before_terminal.1 sampleBusiness
    sampleUrlCheck (some (Json.num 7))
    (Json.obj [("name", Json.str "get_top_crypto_news")]) rfl rfl
  rw [ht]
  rfl

lemma mkResultResponse_shape (id : Option Json) (res : Json) :
    jsGetField (mkResultResponse id res) "jsonrpc" = some (Json.str "2.0") ∧
    hasField (mkResultResponse id res) "result" = true ∧
    hasField (mkResultResponse id res) "error" = false := by
  cases id <;> exact ⟨rfl, rfl, rfl⟩

lemma createErrorResponse_shape (id : Option Json) (code : Int) (msg : String)
    (data : Option Json) :
    jsGetField (createErrorResponse id code msg data) "jsonrpc" = some (Json.str "2.0") ∧
    hasField (createErrorResponse id code msg data) "result" = false ∧
    hasField (createErrorResponse id code msg data) "error" = true := by
  cases id <;> exact ⟨rfl, rfl, rfl⟩

lemma handleToolCallHttp_shaped (business : String → Json → Except String String)
    (urlCheck : String → Bool) (id : Option Json) (params : Option Json) :
    isRpcShaped (handleToolCallHttp business urlCheck id params).resp := by
  unfold handleToolCallHttp
  repeat' split
  all_goals try dsimp only
  all_goals first
    | exact Or.inl ⟨_, _, rfl⟩
    | exact Or.inr ⟨_, _, _, _, rfl⟩

lemma handleResourceRead_shaped (business : String → Json → Except String String)
    (urlCheck : String → Bool) (nowIso : String) (id : Option Json)
    (params : Option Json) :
    isRpcShaped (handleResourceRead business urlCheck nowIso id params).resp := by
  unfold handleResourceRead
  repeat' split
  all_goals try dsimp only
  all_goals first
    | exact Or.inl ⟨_, _, rfl⟩
    | exact Or.inr ⟨_, _, _, _, rfl⟩

lemma handlePromptGet_shaped (nowIso : String) (id : Option Json)
    (params : Option Json) :
    isRpcShaped (handlePromptGet nowIso id params).resp := by
  unfold handlePromptGet
  repeat' split
  all_goals try dsimp only
  all_goals first
    | exact Or.inl ⟨_, _, rfl⟩
    | exact Or.inr ⟨_, _, _, _, rfl⟩

lemma handleJsonRpc_shaped (business : String → Json → Except String String)
    (urlCheck : String → Bool) (nowIso : String) (rpc : Json) :
    isRpcShaped (handleJsonRpc business urlCheck nowIso rpc).resp := by
  unfold handleJsonRpc
  repeat' split
  all_goals try dsimp only
  all_goals first
    | exact Or.inl ⟨_, _, rfl⟩
    | exact Or.inr ⟨_, _, _, _, rfl⟩
    | exact handleToolCallHttp_shaped _ _ _ _
    | exact handleResourceRead_shaped _ _ _ _ _
    | exact handlePromptGet_shaped _ _ _

/-- **C10.**  For every JSON-RPC input value whatsoever — well-formed or
not, including `null`, primitives, and arbitrary objects — `handleJsonRpc`
produces a response (in the source: it never throws and its promise never
rejects, every exception being converted to an error response by a catch
block), and that response is an object whose `jsonrpc` member is `"2.0"`
and which carries exactly one of `result` and `error`.  This totality is
what lets the `Promise.all` batch path isolate failures per entry. -/
theorem http_jsonrpc_total_response_shape
    (business : String → Json → Except String String)
    (urlCheck : String → Bool) (nowIso : String) (rpc : Json) :
    jsGetField (handleJsonRpc business urlCheck nowIso rpc).resp "jsonrpc"
      = some (Json.str "2.0") ∧
    (hasField (handleJsonRpc business urlCheck nowIso rpc).resp "result"
      && hasField (handleJsonRpc business urlCheck nowIso rpc).resp "error") = false ∧
    (hasField (handleJsonRpc business urlCheck nowIso rpc).resp "result"
      || hasField (handleJsonRpc business urlCheck nowIso rpc).resp "error") = true := by
  rcases handleJsonRpc_shaped business urlCheck nowIso rpc with
    ⟨i, res, h⟩ | ⟨i, code, msg, data, h⟩
  · rw [h]
    obtain ⟨h1, h2, h3⟩ := mkResultResponse_shape i res
    exact ⟨h1, by rw [h2, h3]; rfl, by rw [h2, h3]; rfl⟩
  · rw [h]
    obtain ⟨h1, h2, h3⟩ := createErrorResponse_shape i code msg data
    exact ⟨h1, by rw [h2, h3]; rfl, by rw [h2, h3]; rfl⟩
